import Mathlib

/-!
Verification of the html-to-pdf-action conversion pipeline (`src/index.js`).

The development shallowly embeds the program:

* JavaScript string/number builtins used by the program (`parseInt`,
  `parseFloat`, `String.prototype.split(',')`, `trim`, Node's
  `path.dirname`/`path.join`) are modelled as executable Lean functions.
* External collaborators (the filesystem, the WHATWG URL parser,
  `JSON.parse`, the Playwright browser calls, the `wkhtmltopdf`
  subprocess) are oracles carried in environment records: each call site
  of a fallible external operation gets one `Except String Unit` field
  (its success or the exception it throws), and the bytes an external
  renderer leaves at the output path are an `Option String` field.
* `run` (the main function) is embedded as `runResult`, returning the
  overall outcome together with the list of strategies that were
  actually invoked.

Numbers that JavaScript can turn into `NaN` are modelled as `Option Int`
(`none` = `NaN`); `parseFloat` results as `Option Rat`.
-/

deriving instance DecidableEq for Except

/-! ## Models of JavaScript / Node builtins -/

/-- Whitespace as trimmed by JavaScript `String.prototype.trim` (the
common characters; exotic Unicode space classes are not modelled). -/
def isJsSpace (c : Char) : Bool :=
  c == ' ' || c == '\t' || c == '\n' || c == '\r'

/-- Drop whitespace from both ends of a character list. -/
def trimChars (cs : List Char) : List Char :=
  ((cs.dropWhile isJsSpace).reverse.dropWhile isJsSpace).reverse

/-- Model of JavaScript `String.prototype.trim`. -/
def jsTrim (s : String) : String :=
  String.mk (trimChars s.toList)

/-- Helper for `splitChar`: split a character list at a separator. -/
def splitCharAux (sep : Char) : List Char → List Char → List String
  | [], acc => [String.mk acc.reverse]
  | c :: rest, acc =>
    if c = sep then String.mk acc.reverse :: splitCharAux sep rest []
    else splitCharAux sep rest (c :: acc)

/-- Model of JavaScript `str.split(sep)` for a one-character separator.
`""` splits to `[""]`, like in JavaScript. -/
def splitChar (sep : Char) (s : String) : List String :=
  splitCharAux sep s.toList []

/-- Model of JavaScript `str.split(',')` (as used on the margin string). -/
def splitComma (s : String) : List String :=
  splitChar ',' s

/-- Numeric value of a decimal digit character. -/
def digitVal (c : Char) : Nat := c.toNat - 48

/-- Longest prefix of decimal digits. -/
def takeDigits (cs : List Char) : List Char := cs.takeWhile Char.isDigit

/-- Value of a digit string read in base 10. -/
def digitsToNat (cs : List Char) : Nat :=
  cs.foldl (fun a c => 10 * a + digitVal c) 0

/-- Longest digit prefix as a number; `none` when there is no digit
(JavaScript yields `NaN` in that case). -/
def digitsValue (cs : List Char) : Option Nat :=
  let ds := takeDigits cs
  if ds.isEmpty then none else some (digitsToNat ds)

/-- Model of JavaScript `parseInt(s, 10)`: trim, optional sign, then the
longest prefix of decimal digits; `none` models `NaN`. -/
def jsParseInt (s : String) : Option Int :=
  match (jsTrim s).toList with
  | '-' :: rest => (digitsValue rest).map (fun n => -(n : Int))
  | '+' :: rest => (digitsValue rest).map (fun n => (n : Int))
  | cs => (digitsValue cs).map (fun n => (n : Int))

/-- Model of JavaScript `parseFloat(s)` restricted to plain decimal
literals (optional sign, digits, optional fraction). The exponent form
and `Infinity`, which no input of this action exercises, are not
modelled. `none` models `NaN`. -/
def jsParseFloat (s : String) : Option Rat :=
  let cs := (jsTrim s).toList
  let sgn : Rat := match cs with | '-' :: _ => -1 | _ => 1
  let cs1 : List Char :=
    match cs with
    | '-' :: r => r
    | '+' :: r => r
    | _ => cs
  let ip := takeDigits cs1
  let rest := cs1.drop ip.length
  let fp : List Char :=
    match rest with
    | '.' :: r => takeDigits r
    | _ => []
  if ip.isEmpty && fp.isEmpty then none
  else
    some (sgn * ((digitsToNat ip : Rat) + (digitsToNat fp : Rat) / ((10 : Rat) ^ fp.length)))

/-- Rendering of a possibly-`NaN` number inside a template string, as in
the JavaScript interpolation `` `${margin.top}mm` ``. -/
def jsNumStr (n : Option Int) : String :=
  match n with
  | none => "NaN"
  | some i => toString i

/-- Model of Node `path.dirname` for the plain relative/absolute paths
the action uses (no trailing-slash normalization). -/
def pathDirname (p : String) : String :=
  let parts := splitChar '/' p
  if parts.length ≤ 1 then "." else String.intercalate "/" parts.dropLast

/-- Model of Node `path.join dir file` for a simple file name. -/
def pathJoin (dir file : String) : String :=
  if dir = "" then file else dir ++ "/" ++ file

/-- JavaScript `a || b` on strings: the only falsy string is `""`. -/
def orDefault (v d : String) : String := if v = "" then d else v

/-! ## Data model -/

/-- The `sourceType` tag computed by `run` (`'file' | 'url' | 'html'`). -/
inductive SourceType
  | file
  | url
  | html
deriving DecidableEq

/-- The margin object produced by `parseMargins`; each side is an
`Option Int` because JavaScript `parseInt` can yield `NaN` (`none`). -/
structure Margins where
  top : Option Int
  right : Option Int
  bottom : Option Int
  left : Option Int
deriving DecidableEq

/-- A cookie record from the `cookies` JSON input. -/
structure Cookie where
  name : String
  value : String
  domain : Option String
  path : Option String
deriving DecidableEq

/-- The `conversionOptions` object assembled in `run` (lines 368–382). -/
structure Options where
  output : String
  format : String
  margin : Margins
  orientation : String
  headerTemplate : String
  footerTemplate : String
  timeout : Option Int
  scale : Option Rat
  customCss : String
  cookies : List Cookie
  userAgent : String
  printBackground : Bool
  waitForSelector : String
deriving DecidableEq

/-- The exact message of the `Error` thrown by `parseMargins`. -/
def marginErrMsg : String :=
  "Margins must be in format: top,right,bottom,left or a single value for all sides"

/-- Embedding of `parseMargins` (lines 92–106): split on commas, parse
each field with `parseInt(m.trim(), 10)`, then branch on the count. -/
def parseMargins (marginStr : String) : Except String Margins :=
  let margins := (splitComma marginStr).map (fun m => jsParseInt (jsTrim m))
  match margins with
  | [a] => Except.ok ⟨a, a, a, a⟩
  | [a, b, c, d] => Except.ok ⟨a, b, c, d⟩
  | _ => Except.error marginErrMsg

/-- Embedding of the cookie block of `run` (lines 327–335): `cookies`
starts as `[]`; a `JSON.parse` failure is caught (and logged), leaving
the empty list. `jsonParse` is the oracle for the `JSON.parse` builtin. -/
def normalizeCookies (jsonParse : String → Except String (List Cookie))
    (cookiesStr : String) : List Cookie :=
  if cookiesStr = "" then []
  else
    match jsonParse cookiesStr with
    | Except.ok cs => cs
    | Except.error _ => []

/-! ## Strategy A: Playwright (`convertWithPlaywright`, lines 109–182)

Each awaited Playwright call site is one oracle field: either it
returns (`Except.ok ()`) or it throws (`Except.error msg`).  The
per-cookie `addCookies` loop is folded into a single oracle call (the
loop fails iff some iteration fails).  `pdfWrote` is the content the
browser engine leaves at `options.output` once `page.pdf` has been
called (complete on success, engine-dependent on failure). -/

/-- Oracle environment for one `convertWithPlaywright` attempt.
`closeTry` is the `browser.close()` on line 173 (inside the `try`);
`closeCatch` is the `browser.close()` on line 177 (inside the `catch`). -/
structure PwEnv where
  launch : Except String Unit
  newContext : Except String Unit
  newPage : Except String Unit
  addCookies : Except String Unit
  setHeaders : Except String Unit
  goto : Except String Unit
  setContent : Except String Unit
  waitFor : Except String Unit
  addStyle : Except String Unit
  pdf : Except String Unit
  pdfWrote : Option String
  closeTry : Except String Unit
  closeCatch : Except String Unit

/-- Result of a Playwright attempt: the boolean the function returns and
the content left at the output path. -/
structure PwOutcome where
  success : Bool
  outputContent : Option String
deriving DecidableEq

/-- The body of `convertWithPlaywright` up to (excluding) `page.pdf`:
launch, context, page, conditional cookie/user-agent setup, navigation
(`goto` for a URL, `setContent` otherwise), conditional selector wait
and CSS injection (lines 115–158). -/
def pwPrePdf (env : PwEnv) (sourceType : SourceType) (opts : Options) :
    Except String Unit := do
  env.launch
  env.newContext
  env.newPage
  if opts.cookies.length > 0 then
    if sourceType = SourceType.url then
      env.addCookies
  if opts.userAgent ≠ "" then
    env.setHeaders
  if sourceType = SourceType.url then
    env.goto
  else
    env.setContent
  if opts.waitForSelector ≠ "" then
    env.waitFor
  if opts.customCss ≠ "" then
    env.addStyle

/-- The whole `try` block of `convertWithPlaywright`: body, `page.pdf`,
then `browser.close()` (lines 115–174). -/
def pwAll (env : PwEnv) (sourceType : SourceType) (opts : Options) :
    Except String Unit := do
  pwPrePdf env sourceType opts
  env.pdf
  env.closeTry

/-- Content at the output path after a Playwright attempt: the engine
only touches the path in `page.pdf`, which runs iff everything before it
succeeded.  No code path of the strategy removes the file afterwards. -/
def pwFileAt (env : PwEnv) (sourceType : SourceType) (opts : Options) :
    Option String :=
  match pwPrePdf env sourceType opts with
  | Except.ok _ => env.pdfWrote
  | Except.error _ => none

/-- Embedding of `convertWithPlaywright` (lines 109–182).  On a `try`
failure the `catch` closes the browser only if `chromium.launch`
succeeded (`if (browser)`), and that `browser.close()` can itself throw,
in which case the rejection propagates out of the strategy. -/
def convertWithPlaywright (env : PwEnv) (sourceContent : String)
    (sourceType : SourceType) (opts : Options) : Except String PwOutcome :=
  match pwAll env sourceType opts with
  | Except.ok _ => Except.ok ⟨true, pwFileAt env sourceType opts⟩
  | Except.error _ =>
    match env.launch with
    | Except.error _ => Except.ok ⟨false, pwFileAt env sourceType opts⟩
    | Except.ok _ =>
      match env.closeCatch with
      | Except.ok _ => Except.ok ⟨false, pwFileAt env sourceType opts⟩
      | Except.error e2 => Except.error e2

/-! ## Strategy B: wkhtmltopdf (`convertWithWkhtmltopdf`, lines 185–295) -/

/-- Oracle environment for one `convertWithWkhtmltopdf` attempt.
`spawnWhich` is the synchronous `spawn('which', ...)` call (covered by
the `try`/`catch`); `whichExit` its exit code.  The `fs.writeFileSync`
calls and the `wkhtmltopdf` run happen inside the `'close'` event
callback, after the `try` block has returned, so an exception there is
not caught by that `try`/`catch`.  `wkWrote` is the content the
`wkhtmltopdf` process leaves at `options.output`. -/
structure WkEnv where
  spawnWhich : Except String Unit
  whichExit : Int
  writeHeader : Except String Unit
  writeFooter : Except String Unit
  writeTmp : Except String Unit
  wkExit : Int
  wkWrote : Option String

/-- Result of a wkhtmltopdf attempt: the resolved boolean, the files the
strategy wrote itself (path, content), the argument vector handed to the
binary, and the content left at the output path. -/
structure WkOutcome where
  success : Bool
  writes : List (String × String)
  args : List String
  outputContent : Option String
deriving DecidableEq

/-- The branch on lines 259–269 choosing the source argument: a URL or a
file path is passed as-is; inline HTML goes through the written temp
file. -/
def wkSourceArg (sourceType : SourceType) (sourceContent tmpPath : String) :
    String :=
  match sourceType with
  | SourceType.url => sourceContent
  | SourceType.file => sourceContent
  | SourceType.html => tmpPath

/-- The `wkhtmltopdf` argument vector built on lines 199–271.  The
`if (options.margin)` guard is constantly true (the margin object is
always truthy), so the margin flags are unconditional. -/
def wkArgs (sourceType : SourceType) (sourceContent : String)
    (opts : Options) : List String :=
  let dir := pathDirname opts.output
  ["--enable-local-file-access", "--disable-smart-shrinking", "--quiet"]
  ++ ["--margin-top", jsNumStr opts.margin.top ++ "mm",
      "--margin-right", jsNumStr opts.margin.right ++ "mm",
      "--margin-bottom", jsNumStr opts.margin.bottom ++ "mm",
      "--margin-left", jsNumStr opts.margin.left ++ "mm"]
  ++ (if opts.format ≠ "" then ["--page-size", opts.format] else [])
  ++ (if opts.orientation = "landscape" then ["--orientation", "Landscape"]
      else ["--orientation", "Portrait"])
  ++ (if opts.printBackground then ["--background"] else [])
  ++ (match opts.scale with
      | some q => if q ≠ 0 ∧ q ≠ 1 then ["--zoom", toString q] else []
      | none => [])
  ++ (if opts.headerTemplate ≠ "" then
        ["--header-html", pathJoin dir "header.html"] else [])
  ++ (if opts.footerTemplate ≠ "" then
        ["--footer-html", pathJoin dir "footer.html"] else [])
  ++ (if opts.userAgent ≠ "" then ["--user-style-sheet", opts.userAgent] else [])
  ++ (match opts.timeout with
      | some t => if t ≠ 0 then
          ["--javascript-delay", toString (Int.fdiv t 1000)] else []
      | none => [])
  ++ [wkSourceArg sourceType sourceContent (pathJoin dir "temp.html")]
  ++ [opts.output]

/-- One conditional `fs.writeFileSync` call inside the callback: skipped
when the guard is false, otherwise it either records the written file or
throws (and the exception escapes the promise executor). -/
def writeIf (cond : Bool) (res : Except String Unit)
    (entry : String × String) : Except String (List (String × String)) :=
  if cond then res.map (fun _ => [entry]) else pure []

/-- Embedding of `convertWithWkhtmltopdf` (lines 185–295).  A
synchronous throw from `spawn('which', ...)` is caught and resolves
`false`; a missing binary (nonzero `which` exit) resolves `false`
without running anything; otherwise the callback writes the optional
header/footer/temp files and spawns the binary, resolving on its exit
code.  No code path removes `options.output`. -/
def convertWithWkhtmltopdf (env : WkEnv) (sourceContent : String)
    (sourceType : SourceType) (opts : Options) : Except String WkOutcome :=
  match env.spawnWhich with
  | Except.error _ => Except.ok ⟨false, [], [], none⟩
  | Except.ok _ =>
    if env.whichExit ≠ 0 then
      Except.ok ⟨false, [], [], none⟩
    else
      match writeIf (opts.headerTemplate ≠ "") env.writeHeader
          (pathJoin (pathDirname opts.output) "header.html", opts.headerTemplate) with
      | Except.error e => Except.error e
      | Except.ok w1 =>
        match writeIf (opts.footerTemplate ≠ "") env.writeFooter
            (pathJoin (pathDirname opts.output) "footer.html", opts.footerTemplate) with
        | Except.error e => Except.error e
        | Except.ok w2 =>
          match writeIf (sourceType = SourceType.html) env.writeTmp
              (pathJoin (pathDirname opts.output) "temp.html", sourceContent) with
          | Except.error e => Except.error e
          | Except.ok w3 =>
            Except.ok ⟨env.wkExit == 0, w1 ++ w2 ++ w3,
              wkArgs sourceType sourceContent opts, env.wkWrote⟩

/-! ## Strategy C: API service (`convertWithApiService`, lines 297–303) -/

/-- Embedding of `convertWithApiService`: the function is a placeholder
that logs a warning and returns `false` unconditionally. -/
def convertWithApiService (sourceContent : String) (sourceType : SourceType)
    (opts : Options) : Bool :=
  false

/-! ## Orchestration (`run`, lines 306–409) -/

/-- The three conversion strategies, in the priority order of `run`. -/
inductive Strat
  | playwright
  | wkhtmltopdf
  | apiService
deriving DecidableEq

/-- Overall outcome of one invocation: `setOutput('pdf_path', output)`
on success, `setFailed(msg)` otherwise. -/
inductive RunOutcome
  | success (pdfPath : String)
  | failed (msg : String)
deriving DecidableEq

/-- The exact message passed to `setFailed` when every strategy failed
(line 404). -/
def exhaustedMsg : String :=
  "All conversion methods failed. Please ensure your HTML is valid and try installing wkhtmltopdf."

/-- The strategy chain of `run` (lines 384–405): try Playwright; on
`false` try wkhtmltopdf; on `false` try the API service; report.  An
exception escaping a strategy is caught by the outer `try`/`catch`
(line 406) and becomes `setFailed('Action failed: ...')` — later
strategies are then never attempted.  The second component is the list
of strategies that were actually invoked. -/
def runPipeline (pwRes : Except String PwOutcome)
    (wkRes : Except String WkOutcome) (apiRes : Bool) (output : String) :
    RunOutcome × List Strat :=
  match pwRes with
  | Except.error e => (RunOutcome.failed ("Action failed: " ++ e), [Strat.playwright])
  | Except.ok o =>
    if o.success then
      (RunOutcome.success output, [Strat.playwright])
    else
      match wkRes with
      | Except.error e =>
        (RunOutcome.failed ("Action failed: " ++ e),
          [Strat.playwright, Strat.wkhtmltopdf])
      | Except.ok o2 =>
        if o2.success then
          (RunOutcome.success output, [Strat.playwright, Strat.wkhtmltopdf])
        else if apiRes then
          (RunOutcome.success output,
            [Strat.playwright, Strat.wkhtmltopdf, Strat.apiService])
        else
          (RunOutcome.failed exhaustedMsg,
            [Strat.playwright, Strat.wkhtmltopdf, Strat.apiService])

/-- The raw option strings of one invocation, as returned by
`getInput` (a missing optional input is the empty string). -/
structure RawInputs where
  source : String
  output : String
  wait_for : String
  format : String
  margin : String
  orientation : String
  header_template : String
  footer_template : String
  timeout : String
  scale : String
  custom_css : String
  cookies : String
  user_agent : String
  print_background : String
deriving DecidableEq

/-- The external world of one invocation: `fsIsFile` is the
`isFilePath` oracle (`fs.stat` + `isFile()`, any exception caught as
`false`), `urlOk` the `new URL(...)` parse oracle (`isUrl`), `readFile`
the `fs.readFile` result, `jsonParse` the `JSON.parse` builtin, and
`pw`/`wk` the strategy environments. -/
structure World where
  fsIsFile : String → Bool
  urlOk : String → Bool
  readFile : String → String
  jsonParse : String → Except String (List Cookie)
  pw : PwEnv
  wk : WkEnv

/-- The classification block of `run` (lines 344–359): file existence is
checked first, then URL syntax, and anything else is inline HTML.  Both
predicates catch their own exceptions, so this step is total. -/
def classifySource (fsIsFile urlOk : String → Bool) (s : String) : SourceType :=
  if fsIsFile s then SourceType.file
  else if urlOk s then SourceType.url
  else SourceType.html

/-- Classification plus the reclassification block (lines 361–365): a
`'file'` source is read in full and its type overwritten to `'html'`
before any strategy runs. -/
def resolveSource (w : World) (s : String) : String × SourceType :=
  match classifySource w.fsIsFile w.urlOk s with
  | SourceType.file => (w.readFile s, SourceType.html)
  | t => (s, t)

/-- The `conversionOptions` object as assembled from the raw inputs
(lines 311–322 and 368–382), given the already-parsed margin object. -/
def mkOptions (w : World) (raw : RawInputs) (margin : Margins) : Options :=
  { output := raw.output
    format := orDefault raw.format "A4"
    margin := margin
    orientation := orDefault raw.orientation "portrait"
    headerTemplate := orDefault raw.header_template ""
    footerTemplate := orDefault raw.footer_template ""
    timeout := jsParseInt (orDefault raw.timeout "30000")
    scale := jsParseFloat (orDefault raw.scale "1")
    customCss := orDefault raw.custom_css ""
    cookies := normalizeCookies w.jsonParse (orDefault raw.cookies "[]")
    userAgent := raw.user_agent
    printBackground := raw.print_background ≠ "false"
    waitForSelector := raw.wait_for }

/-- Embedding of `run` (lines 306–409): margins are parsed first (a
throw is caught by the outer handler before any strategy runs), the
options object and the resolved source are built, and the strategy chain
executes.  `fs.ensureDir` and the logging calls are I/O wrappers with no
effect on the modelled state. -/
def runResult (w : World) (raw : RawInputs) : RunOutcome × List Strat :=
  match parseMargins (orDefault raw.margin "10,10,10,10") with
  | Except.error e => (RunOutcome.failed ("Action failed: " ++ e), [])
  | Except.ok m =>
    let opts := mkOptions w raw m
    let rs := resolveSource w raw.source
    runPipeline
      (convertWithPlaywright w.pw rs.1 rs.2 opts)
      (convertWithWkhtmltopdf w.wk rs.1 rs.2 opts)
      (convertWithApiService rs.1 rs.2 opts)
      raw.output

/-! ## Concrete environments used by witnesses and counterexamples -/

/-- A fully successful Playwright environment. -/
def pwEnvOk : PwEnv :=
  { launch := Except.ok (), newContext := Except.ok (), newPage := Except.ok ()
    addCookies := Except.ok (), setHeaders := Except.ok ()
    goto := Except.ok (), setContent := Except.ok ()
    waitFor := Except.ok (), addStyle := Except.ok ()
    pdf := Except.ok (), pdfWrote := some "%PDF-1.4 complete"
    closeTry := Except.ok (), closeCatch := Except.ok () }

/-- A Playwright environment whose navigation times out and whose
`browser.close()` in the `catch` handler itself throws. -/
def pwEnvCloseFail : PwEnv :=
  { pwEnvOk with
    goto := Except.error "page.goto: Timeout 2000ms exceeded"
    pdfWrote := none
    closeCatch := Except.error "browser.close: Target closed" }

/-- A Playwright environment whose navigation times out but whose
cleanup succeeds: the attempt resolves `false`. -/
def pwEnvTimeout : PwEnv :=
  { pwEnvOk with
    goto := Except.error "page.goto: Timeout 2000ms exceeded"
    pdfWrote := none }

/-- A wkhtmltopdf environment where the binary is absent (`which` exits
nonzero). -/
def wkEnvAbsent : WkEnv :=
  { spawnWhich := Except.ok (), whichExit := 1
    writeHeader := Except.ok (), writeFooter := Except.ok ()
    writeTmp := Except.ok (), wkExit := 0, wkWrote := none }

/-- A wkhtmltopdf environment where the binary exists but fails (exit
code 1) after writing nothing to the output path. -/
def wkEnvFail : WkEnv :=
  { wkEnvAbsent with whichExit := 0, wkExit := 1 }

/-- A wkhtmltopdf environment where the binary fails (exit code 1) but
has already written a truncated document to the output path. -/
def wkEnvPartial : WkEnv :=
  { wkEnvFail with wkWrote := some "%PDF-1.4 partial content" }

/-- A representative options record (all defaults, output under a
subdirectory). -/
def sampleOpts : Options :=
  { output := "out/result.pdf", format := "A4"
    margin := ⟨some 10, some 10, some 10, some 10⟩
    orientation := "portrait", headerTemplate := "", footerTemplate := ""
    timeout := some 30000, scale := some 1, customCss := ""
    cookies := [], userAgent := "", printBackground := true
    waitForSelector := "" }

/-- Raw inputs for an invocation against an unreachable URL with a
short timeout, all other options left at their defaults. -/
def rawUnreachable : RawInputs :=
  { source := "http://unreachable.invalid/", output := "out/result.pdf"
    wait_for := "", format := "", margin := "", orientation := ""
    header_template := "", footer_template := "", timeout := "2000"
    scale := "", custom_css := "", cookies := "", user_agent := ""
    print_background := "" }

/-- World for the unreachable-URL invocation: the source string is not a
file, parses as a URL, navigation times out, and wkhtmltopdf is present
but fails on the same unreachable address. -/
def worldUnreachable : World :=
  { fsIsFile := fun _ => false
    urlOk := fun s => s == "http://unreachable.invalid/"
    readFile := fun _ => ""
    jsonParse := fun _ => Except.ok []
    pw := pwEnvTimeout
    wk := wkEnvFail }

/-- A benign world: nothing is a file or URL, JSON parses to no cookies,
both real strategies behave. -/
def worldBenign : World :=
  { fsIsFile := fun _ => false
    urlOk := fun _ => false
    readFile := fun _ => ""
    jsonParse := fun _ => Except.ok []
    pw := pwEnvOk
    wk := wkEnvAbsent }

/-- A world whose cookie JSON input fails to parse. -/
def worldCookieFail : World :=
  { worldBenign with
    jsonParse := fun _ => Except.error "Unexpected token o in JSON at position 1" }

/-- Raw inputs whose `timeout` is the non-numeric string `abc` and whose
other optional inputs are absent. -/
def rawTimeoutAbc : RawInputs :=
  { rawUnreachable with source := "<h1>Hi</h1>", timeout := "abc" }

/-- Raw inputs with every optional input absent. -/
def rawDefaults : RawInputs :=
  { rawUnreachable with source := "<h1>Hi</h1>", timeout := "" }

/-- A world in which `report.html` exists as a regular file with a small
HTML document as content. -/
def worldFile : World :=
  { worldBenign with
    fsIsFile := fun p => p == "report.html"
    readFile := fun _ => "<h1>Hi</h1>" }

/-! ## Helper lemmas -/

/-- The attempt list of the strategy chain takes one of exactly three
shapes, always starting with Playwright. -/
theorem runPipeline_attempts_cases (pwRes : Except String PwOutcome)
    (wkRes : Except String WkOutcome) (apiRes : Bool) (output : String) :
    (runPipeline pwRes wkRes apiRes output).2 = [Strat.playwright]
    ∨ (runPipeline pwRes wkRes apiRes output).2 = [Strat.playwright, Strat.wkhtmltopdf]
    ∨ (runPipeline pwRes wkRes apiRes output).2
        = [Strat.playwright, Strat.wkhtmltopdf, Strat.apiService] := by
  unfold runPipeline
  rcases pwRes with e | o
  · simp
  · by_cases h : o.success
    · simp [h]
    · rcases wkRes with e2 | o2
      · simp [h]
      · by_cases h2 : o2.success
        · simp [h, h2]
        · by_cases h3 : apiRes <;> simp [h, h2, h3]

/-! ## Claim theorems -/

/-- C2: the orchestrator attempts the strategies strictly in priority
order and stops at the first success: the attempt list is always an
order-preserving sublist of `[playwright, wkhtmltopdf, apiService]`; if
Playwright reports success the later strategies are never invoked; if
wkhtmltopdf succeeds the API strategy is never invoked; and every
strategy is attempted at most once. -/
theorem pipeline_priority_order (pwRes : Except String PwOutcome)
    (wkRes : Except String WkOutcome) (apiRes : Bool) (output : String) :
    List.Sublist (runPipeline pwRes wkRes apiRes output).2
      [Strat.playwright, Strat.wkhtmltopdf, Strat.apiService]
    ∧ (∀ o : PwOutcome, pwRes = Except.ok o → o.success = true →
        runPipeline pwRes wkRes apiRes output
          = (RunOutcome.success output, [Strat.playwright]))
    ∧ (∀ (o : PwOutcome) (o2 : WkOutcome), pwRes = Except.ok o → o.success = false →
        wkRes = Except.ok o2 → o2.success = true →
        runPipeline pwRes wkRes apiRes output
          = (RunOutcome.success output, [Strat.playwright, Strat.wkhtmltopdf]))
    ∧ (∀ st : Strat, (runPipeline pwRes wkRes apiRes output).2.count st ≤ 1) := by
  refine ⟨?_, ?_, ?_, ?_⟩
  · rcases runPipeline_attempts_cases pwRes wkRes apiRes output with h | h | h <;>
      rw [h] <;> decide
  · intro o ho hs
    subst ho
    simp [runPipeline, hs]
  · intro o o2 ho hs ho2 hs2
    subst ho; subst ho2
    simp [runPipeline, hs, hs2]
  · intro st
    rcases runPipeline_attempts_cases pwRes wkRes apiRes output with h | h | h <;>
      rw [h] <;> rcases st <;> decide

/-- Witness for C2 at a concrete input: Playwright succeeds, so the
attempt list is exactly `[playwright]`. -/
theorem pipeline_priority_order_witness :
    runPipeline (Except.ok ⟨true, some "%PDF-1.4 complete"⟩)
        (Except.ok ⟨false, [], [], none⟩) false "out/result.pdf"
      = (RunOutcome.success "out/result.pdf", [Strat.playwright]) :=
  (pipeline_priority_order _ _ _ _).2.1 ⟨true, some "%PDF-1.4 complete"⟩ rfl rfl

/-- C3: source classification is total (a Lean function) and ordered:
`file` iff the filesystem oracle says the string is an existing regular
file (checked first, so it wins over URL syntax); otherwise `url` iff
the URL parse oracle accepts the string; otherwise `html`. -/
theorem classify_source_total_ordered (fsIsFile urlOk : String → Bool) (s : String) :
    (classifySource fsIsFile urlOk s = SourceType.file ↔ fsIsFile s = true)
    ∧ (fsIsFile s = false →
        (classifySource fsIsFile urlOk s = SourceType.url ↔ urlOk s = true))
    ∧ (fsIsFile s = false → urlOk s = false →
        classifySource fsIsFile urlOk s = SourceType.html) := by
  unfold classifySource
  by_cases h1 : fsIsFile s <;> by_cases h2 : urlOk s <;> simp [h1, h2]

/-- Witness for C3: a well-formed URL string that also exists as a file
classifies as a file, and a string that is neither classifies as inline
HTML. -/
theorem classify_source_total_ordered_witness :
    classifySource (fun _ => true) (fun _ => true) "http://example.com/" = SourceType.file
    ∧ classifySource (fun _ => false) (fun _ => false) "plain text" = SourceType.html :=
  ⟨(classify_source_total_ordered (fun _ => true) (fun _ => true) "http://example.com/").1.mpr rfl,
   (classify_source_total_ordered (fun _ => false) (fun _ => false) "plain text").2.2 rfl rfl⟩

/-- C6: margin parsing broadcasts a single value to all four sides, maps
four values positionally to top, right, bottom, left, and throws on a
three-value string. -/
theorem parse_margins_examples :
    parseMargins "10" = Except.ok ⟨some 10, some 10, some 10, some 10⟩
    ∧ parseMargins "20,15,20,15" = Except.ok ⟨some 20, some 15, some 20, some 15⟩
    ∧ parseMargins "1,2,3" = Except.error marginErrMsg := by
  refine ⟨by decide, by decide, by decide⟩

/-- C5 counterexample: `"abc"` does not parse into an integer
(`parseInt` gives `NaN`), yet `parseMargins` raises no error — it
returns an all-`NaN` margin object.  So the error is not raised exactly
when the string fails to parse into 1 or 4 integers. -/
theorem parse_margins_nan_counterexample :
    parseMargins "abc" = Except.ok ⟨none, none, none, none⟩
    ∧ jsParseInt "abc" = none := by
  refine ⟨by decide, by decide⟩

/-- C5 amended: `parseMargins` throws iff the comma-split field count is
neither 1 nor 4 (non-numeric fields become `NaN` without an error), and
the throw is fatal before any strategy runs: `run` ends in `setFailed`
with an empty attempt list. -/
theorem parse_margins_error_iff :
    (∀ s : String, (parseMargins s).isOk = true ↔
      ((splitComma s).length = 1 ∨ (splitComma s).length = 4))
    ∧ (∀ (w : World) (raw : RawInputs) (e : String),
        parseMargins (orDefault raw.margin "10,10,10,10") = Except.error e →
        runResult w raw = (RunOutcome.failed ("Action failed: " ++ e), [])) := by
  constructor
  · intro s
    unfold parseMargins
    rcases h : splitComma s with _ | ⟨a, _ | ⟨b, _ | ⟨c, _ | ⟨d, _ | t⟩⟩⟩⟩ <;>
      simp [h, Except.isOk, Except.toBool]
  · intro w raw e h
    unfold runResult
    rw [h]

/-- Witness for C5 amended: a three-field margin string makes the whole
invocation fail before any strategy is attempted. -/
theorem parse_margins_error_iff_witness :
    ((parseMargins "1,2,3").isOk = true ↔
      ((splitComma "1,2,3").length = 1 ∨ (splitComma "1,2,3").length = 4))
    ∧ runResult worldBenign { rawUnreachable with source := "x", margin := "1,2,3" }
        = (RunOutcome.failed ("Action failed: " ++ marginErrMsg), []) :=
  ⟨(parse_margins_error_iff).1 "1,2,3",
   (parse_margins_error_iff).2 worldBenign _ marginErrMsg (by decide)⟩

/-- C7: a `JSON.parse` failure on the cookies input is recovered: the
cookie set normalizes to the empty list (also through the options
object), and the run still proceeds into the strategy chain whenever the
margins parse. -/
theorem cookie_parse_failure_recovered :
    (∀ (jsonParse : String → Except String (List Cookie)) (s e : String),
        jsonParse s = Except.error e → normalizeCookies jsonParse s = [])
    ∧ (∀ (w : World) (raw : RawInputs) (m : Margins) (e : String),
        w.jsonParse (orDefault raw.cookies "[]") = Except.error e →
        (mkOptions w raw m).cookies = [])
    ∧ (∀ (w : World) (raw : RawInputs),
        (parseMargins (orDefault raw.margin "10,10,10,10")).isOk = true →
        Strat.playwright ∈ (runResult w raw).2) := by
  refine ⟨?_, ?_, ?_⟩
  · intro jsonParse s e h
    unfold normalizeCookies
    by_cases hs : s = "" <;> simp [hs, h]
  · intro w raw m e h
    unfold mkOptions normalizeCookies
    by_cases hs : orDefault raw.cookies "[]" = "" <;> simp [hs, h]
  · intro w raw h
    unfold runResult
    rcases hm : parseMargins (orDefault raw.margin "10,10,10,10") with e | m
    · rw [hm] at h; simp [Except.isOk, Except.toBool] at h
    · rcases runPipeline_attempts_cases
        (convertWithPlaywright w.pw (resolveSource w raw.source).1
          (resolveSource w raw.source).2 (mkOptions w raw m))
        (convertWithWkhtmltopdf w.wk (resolveSource w raw.source).1
          (resolveSource w raw.source).2 (mkOptions w raw m))
        (convertWithApiService (resolveSource w raw.source).1
          (resolveSource w raw.source).2 (mkOptions w raw m))
        raw.output with hc | hc | hc <;> simp [hc]

/-- Witness for C7: the literal input `"not json"` normalizes to no
cookies, and a run whose cookie input fails to parse still reaches the
Playwright strategy. -/
theorem cookie_parse_failure_recovered_witness :
    normalizeCookies (fun _ => Except.error "Unexpected token o in JSON at position 1")
        "not json" = []
    ∧ Strat.playwright ∈
        (runResult worldCookieFail
          { rawUnreachable with source := "x", cookies := "not json" }).2 :=
  ⟨cookie_parse_failure_recovered.1 _ "not json"
      "Unexpected token o in JSON at position 1" rfl,
   cookie_parse_failure_recovered.2.2 worldCookieFail _ (by decide)⟩

/-- C8 counterexample: with `timeout` input `"abc"` (not a valid
number), the normalized timeout is `NaN` (`none`), not the documented
default 30000 ms — the default is applied only when the input is empty. -/
theorem timeout_nan_counterexample :
    (mkOptions worldBenign rawTimeoutAbc ⟨some 10, some 10, some 10, some 10⟩).timeout = none
    ∧ (mkOptions worldBenign rawTimeoutAbc ⟨some 10, some 10, some 10, some 10⟩).timeout
        ≠ some 30000 := by
  refine ⟨by decide, by decide⟩

/-- C8 amended: defaults are applied when an input is absent (empty
string): timeout 30000, scale 1, format "A4", orientation "portrait",
margin "10,10,10,10"; a non-empty timeout/scale input is passed to
`parseInt`/`parseFloat` unchanged (so a non-numeric one yields `NaN`,
not the default); and print_background is true unless the input is the
literal string "false". -/
theorem option_defaults_applied (w : World) (raw : RawInputs) (m : Margins) :
    (raw.timeout = "" → (mkOptions w raw m).timeout = some 30000)
    ∧ (raw.scale = "" → (mkOptions w raw m).scale = some 1)
    ∧ (raw.timeout ≠ "" → (mkOptions w raw m).timeout = jsParseInt raw.timeout)
    ∧ (raw.scale ≠ "" → (mkOptions w raw m).scale = jsParseFloat raw.scale)
    ∧ (raw.format = "" → (mkOptions w raw m).format = "A4")
    ∧ (raw.orientation = "" → (mkOptions w raw m).orientation = "portrait")
    ∧ (raw.margin = "" → parseMargins (orDefault raw.margin "10,10,10,10")
        = Except.ok ⟨some 10, some 10, some 10, some 10⟩)
    ∧ ((mkOptions w raw m).printBackground = true ↔ raw.print_background ≠ "false") := by
  refine ⟨?_, ?_, ?_, ?_, ?_, ?_, ?_, ?_⟩
  · intro h
    simp [mkOptions, orDefault, h]
    decide
  · intro h
    simp [mkOptions, orDefault, h]
    simp [jsParseFloat, jsTrim, trimChars, takeDigits, digitsToNat, digitVal, isJsSpace]
  · intro h
    simp [mkOptions, orDefault, h]
  · intro h
    simp [mkOptions, orDefault, h]
  · intro h
    simp [mkOptions, orDefault, h]
  · intro h
    simp [mkOptions, orDefault, h]
  · intro h
    simp [orDefault, h]
    decide
  · simp [mkOptions]

/-- Witness for C8 amended: with every optional input absent, the
normalized options carry the documented defaults. -/
theorem option_defaults_applied_witness :
    (mkOptions worldBenign rawDefaults ⟨some 10, some 10, some 10, some 10⟩).timeout = some 30000
    ∧ (mkOptions worldBenign rawDefaults ⟨some 10, some 10, some 10, some 10⟩).scale = some 1
    ∧ (mkOptions worldBenign rawDefaults ⟨some 10, some 10, some 10, some 10⟩).format = "A4"
    ∧ (mkOptions worldBenign rawDefaults ⟨some 10, some 10, some 10, some 10⟩).printBackground = true :=
  ⟨(option_defaults_applied worldBenign rawDefaults _).1 rfl,
   (option_defaults_applied worldBenign rawDefaults _).2.1 rfl,
   (option_defaults_applied worldBenign rawDefaults _).2.2.2.2.1 rfl,
   (option_defaults_applied worldBenign rawDefaults _).2.2.2.2.2.2.2.mpr (by decide)⟩

/-- C4 counterexample: an exception can escape a strategy boundary.  In
an environment where navigation throws and the `browser.close()` inside
the `catch` handler also throws, `convertWithPlaywright` rejects instead
of returning `false`, and the whole run aborts with `Action failed: ...`
after only the Playwright attempt — wkhtmltopdf is never tried. -/
theorem exception_escapes_strategy_counterexample :
    convertWithPlaywright pwEnvCloseFail "http://example.invalid/" SourceType.url sampleOpts
      = Except.error "browser.close: Target closed"
    ∧ runResult { worldUnreachable with pw := pwEnvCloseFail } rawUnreachable
        = (RunOutcome.failed "Action failed: browser.close: Target closed",
           [Strat.playwright]) := by
  refine ⟨by rfl, by decide⟩

/-- C4 amended: every exception raised in a strategy body is caught and
converted into a boolean failure result, provided the cleanup paths do
not throw: Playwright never rejects when the `catch`-handler
`browser.close()` succeeds (returning `true` on a successful body and
`false` on a failed one), and wkhtmltopdf never rejects when its
temp-file writes succeed. -/
theorem strategy_failures_contained :
    (∀ (env : PwEnv) (c : String) (st : SourceType) (o : Options),
        pwAll env st o = Except.ok () →
        convertWithPlaywright env c st o = Except.ok ⟨true, pwFileAt env st o⟩)
    ∧ (∀ (env : PwEnv) (c : String) (st : SourceType) (o : Options) (e : String),
        env.closeCatch = Except.ok () → pwAll env st o = Except.error e →
        convertWithPlaywright env c st o = Except.ok ⟨false, pwFileAt env st o⟩)
    ∧ (∀ (env : WkEnv) (c : String) (st : SourceType) (o : Options),
        env.writeHeader = Except.ok () → env.writeFooter = Except.ok () →
        env.writeTmp = Except.ok () →
        (convertWithWkhtmltopdf env c st o).isOk = true) := by
  refine ⟨?_, ?_, ?_⟩
  · intro env c st o h
    simp [convertWithPlaywright, h]
  · intro env c st o e hclose h
    rcases hl : env.launch with el | ul
    · simp [convertWithPlaywright, h, hl]
    · simp [convertWithPlaywright, h, hl, hclose]
  · intro env c st o h1 h2 h3
    unfold convertWithWkhtmltopdf
    split
    · rfl
    · split
      · rfl
      · split
        · next heq =>
            rw [writeIf, h1] at heq
            split_ifs at heq <;> simp [Except.map, pure, Except.pure] at heq
        · split
          · next heq =>
              rw [writeIf, h2] at heq
              split_ifs at heq <;> simp [Except.map, pure, Except.pure] at heq
          · split
            · next heq =>
                rw [writeIf, h3] at heq
                split_ifs at heq <;> simp [Except.map, pure, Except.pure] at heq
            · rfl

/-- Witness for C4 amended: a timed-out navigation with healthy cleanup
yields `false` from Playwright, and a failing wkhtmltopdf binary still
resolves (no rejection). -/
theorem strategy_failures_contained_witness :
    convertWithPlaywright pwEnvTimeout "http://unreachable.invalid/" SourceType.url sampleOpts
      = Except.ok ⟨false, pwFileAt pwEnvTimeout SourceType.url sampleOpts⟩
    ∧ (convertWithWkhtmltopdf wkEnvFail "<h1>x</h1>" SourceType.html sampleOpts).isOk = true :=
  ⟨strategy_failures_contained.2.1 pwEnvTimeout "http://unreachable.invalid/" SourceType.url
      sampleOpts "page.goto: Timeout 2000ms exceeded" rfl (by rfl),
   strategy_failures_contained.2.2 wkEnvFail "<h1>x</h1>" SourceType.html sampleOpts rfl rfl rfl⟩

/-- C9 counterexample: an attempt can fail and still leave a file at the
output path.  When the `wkhtmltopdf` process exits nonzero after having
written a truncated document to `options.output`, the strategy resolves
`false` and the partial file remains — the code has no cleanup. -/
theorem failed_attempt_file_left_behind_counterexample :
    (convertWithWkhtmltopdf wkEnvPartial "<h1>x</h1>" SourceType.html sampleOpts).toOption.map
        (fun o => (o.success, o.outputContent))
      = some (false, some "%PDF-1.4 partial content") := by rfl

/-- C9 amended: a strategy attempt performs no cleanup of the output
path: after any resolved wkhtmltopdf attempt the path holds exactly what
the external binary wrote (or nothing, when the binary never ran), so a
failed attempt leaves no file only when the renderer wrote nothing; the
Playwright attempt likewise leaves exactly what the engine wrote in
`page.pdf`. -/
theorem output_path_reflects_renderer_writes :
    (∀ (env : WkEnv) (c : String) (st : SourceType) (o : Options) (out : WkOutcome),
        convertWithWkhtmltopdf env c st o = Except.ok out →
        out.outputContent = env.wkWrote ∨ out.outputContent = none)
    ∧ (∀ (env : WkEnv) (c : String) (st : SourceType) (o : Options) (out : WkOutcome),
        convertWithWkhtmltopdf env c st o = Except.ok out → env.wkWrote = none →
        out.outputContent = none)
    ∧ (∀ (env : PwEnv) (c : String) (st : SourceType) (o : Options) (out : PwOutcome),
        convertWithPlaywright env c st o = Except.ok out →
        out.outputContent = pwFileAt env st o) := by
  have hwk : ∀ (env : WkEnv) (c : String) (st : SourceType) (o : Options) (out : WkOutcome),
      convertWithWkhtmltopdf env c st o = Except.ok out →
      out.outputContent = env.wkWrote ∨ out.outputContent = none := by
    intro env c st o out h
    unfold convertWithWkhtmltopdf at h
    split at h
    · simp at h
      right
      rw [← h]
    · split at h
      · simp at h
        right
        rw [← h]
      · split at h
        · simp at h
        · split at h
          · simp at h
          · split at h
            · simp at h
            · simp at h
              left
              rw [← h]
  refine ⟨hwk, ?_, ?_⟩
  · intro env c st o out h hn
    rcases hwk env c st o out h with h1 | h1
    · rw [h1, hn]
    · exact h1
  · intro env c st o out h
    unfold convertWithPlaywright at h
    split at h
    · simp at h
      rw [← h]
    · split at h
      · simp at h
        rw [← h]
      · split at h
        · simp at h
          rw [← h]
        · simp at h

/-- Witness for C9 amended: when the failing binary writes nothing, the
failed attempt leaves nothing at the output path. -/
theorem output_path_reflects_renderer_writes_witness :
    ((convertWithWkhtmltopdf wkEnvFail "<h1>x</h1>" SourceType.html sampleOpts).toOption.map
        WkOutcome.outputContent = some none) :=
  match hx : convertWithWkhtmltopdf wkEnvFail "<h1>x</h1>" SourceType.html sampleOpts with
  | Except.ok out => by
      have := output_path_reflects_renderer_writes.2.1 wkEnvFail "<h1>x</h1>"
        SourceType.html sampleOpts out hx rfl
      simp [Except.toOption, this]
  | Except.error e => by
      have h2 : (convertWithWkhtmltopdf wkEnvFail "<h1>x</h1>" SourceType.html
          sampleOpts).isOk = true := by rfl
      rw [hx] at h2
      simp [Except.isOk, Except.toBool] at h2

/-- C1 counterexample: for the unreachable-URL invocation (navigation
times out in Playwright, wkhtmltopdf exits nonzero), both real
strategies report failure and the run terminates in overall failure
("All conversion methods failed...") — not in success via a guaranteed
fallback: no such Strategy D exists in the code, the last-resort API
strategy being an unimplemented placeholder. -/
theorem unreachable_url_exhaustion_counterexample :
    (convertWithPlaywright worldUnreachable.pw "http://unreachable.invalid/" SourceType.url
        (mkOptions worldUnreachable rawUnreachable ⟨some 10, some 10, some 10, some 10⟩)).toOption.map
        PwOutcome.success = some false
    ∧ (convertWithWkhtmltopdf worldUnreachable.wk "http://unreachable.invalid/" SourceType.url
        (mkOptions worldUnreachable rawUnreachable ⟨some 10, some 10, some 10, some 10⟩)).toOption.map
        WkOutcome.success = some false
    ∧ runResult worldUnreachable rawUnreachable
        = (RunOutcome.failed exhaustedMsg,
           [Strat.playwright, Strat.wkhtmltopdf, Strat.apiService]) := by
  refine ⟨by rfl, by rfl, by decide⟩

/-- C1 amended: the API strategy always returns `false`, so whenever
Playwright and wkhtmltopdf both resolve with failure the pipeline
necessarily terminates in overall failure (pipeline exhaustion) after
attempting all three strategies — there is no guaranteed fallback that
turns this situation into a success. -/
theorem pipeline_exhausts_without_fallback :
    (∀ (c : String) (st : SourceType) (o : Options), convertWithApiService c st o = false)
    ∧ (∀ (po : PwOutcome) (wo : WkOutcome) (c output : String) (st : SourceType) (o : Options),
        po.success = false → wo.success = false →
        runPipeline (Except.ok po) (Except.ok wo) (convertWithApiService c st o) output
          = (RunOutcome.failed exhaustedMsg,
             [Strat.playwright, Strat.wkhtmltopdf, Strat.apiService])) := by
  refine ⟨fun _ _ _ => rfl, ?_⟩
  intro po wo c output st o hp hw
  simp [runPipeline, convertWithApiService, hp, hw]

/-- Witness for C1 amended at concrete failed outcomes. -/
theorem pipeline_exhausts_without_fallback_witness :
    runPipeline (Except.ok ⟨false, none⟩) (Except.ok ⟨false, [], [], none⟩)
        (convertWithApiService "<h1>x</h1>" SourceType.html sampleOpts) "out/result.pdf"
      = (RunOutcome.failed exhaustedMsg,
         [Strat.playwright, Strat.wkhtmltopdf, Strat.apiService]) :=
  pipeline_exhausts_without_fallback.2 ⟨false, none⟩ ⟨false, [], [], none⟩
    "<h1>x</h1>" "out/result.pdf" SourceType.html sampleOpts rfl rfl

/-- C10: the resolved source handed to the strategies is never of type
`file` (a file source is read and reclassified to inline HTML before any
strategy runs, so the CLI strategy's file branch is unreachable from
`run`); when the original string is an existing file the resolved pair
is its content tagged `html`; and an `html` source reaches the
wkhtmltopdf binary through the written `temp.html` file, whose path is
the source argument. -/
theorem file_sources_reclassified (w : World) (s : String) :
    (resolveSource w s).2 ≠ SourceType.file
    ∧ (w.fsIsFile s = true → resolveSource w s = (w.readFile s, SourceType.html))
    ∧ (∀ (env : WkEnv) (content : String) (o : Options) (out : WkOutcome),
        convertWithWkhtmltopdf env content SourceType.html o = Except.ok out →
        env.spawnWhich = Except.ok () → env.whichExit = 0 →
        (pathJoin (pathDirname o.output) "temp.html", content) ∈ out.writes
        ∧ wkSourceArg SourceType.html content (pathJoin (pathDirname o.output) "temp.html")
            = pathJoin (pathDirname o.output) "temp.html") := by
  refine ⟨?_, ?_, ?_⟩
  · unfold resolveSource classifySource
    by_cases hf : w.fsIsFile s <;> by_cases hu : w.urlOk s <;> simp [hf, hu]
  · intro h
    simp [resolveSource, classifySource, h]
  · intro env content o out h hsw hx0
    unfold convertWithWkhtmltopdf at h
    split at h
    · next heq =>
        rw [hsw] at heq
        simp at heq
    · split at h
      · next hne => exact absurd hx0 hne
      · split at h
        · simp at h
        · split at h
          · simp at h
          · split at h
            · simp at h
            · next w3 heq3 =>
                simp at h
                rcases ht : env.writeTmp with e | u <;> rw [writeIf, ht] at heq3 <;>
                  simp [Except.map] at heq3
                refine ⟨?_, rfl⟩
                rw [← h]
                simp [← heq3]

/-- Witness for C10: a source that exists as a file resolves to its
content tagged `html`, and the temp-file write is observed in a concrete
wkhtmltopdf attempt. -/
theorem file_sources_reclassified_witness :
    resolveSource worldFile "report.html" = ("<h1>Hi</h1>", SourceType.html)
    ∧ (pathJoin (pathDirname sampleOpts.output) "temp.html", "<h1>Hi</h1>")
        ∈ ([(pathJoin (pathDirname sampleOpts.output) "temp.html", "<h1>Hi</h1>")] :
            List (String × String)) :=
  ⟨(file_sources_reclassified worldFile "report.html").2.1 rfl,
   ((file_sources_reclassified worldFile "report.html").2.2 wkEnvFail "<h1>Hi</h1>" sampleOpts
      ⟨false, [(pathJoin (pathDirname sampleOpts.output) "temp.html", "<h1>Hi</h1>")],
        wkArgs SourceType.html "<h1>Hi</h1>" sampleOpts, none⟩
      (by rfl) rfl rfl).1⟩
